import Mathlib

/-!
Verification development for the Storage Bay Designer application
(`src/app.py`).

The application is a single-script form UI over a bay-layout computation.
We embed the bay configuration record and the pure computations the script
performs on it: parameter validation (`validate_group_params`), the two
height-recomputation callbacks (`update_total_height`,
`distribute_total_height`), the row-count and manual-heights handlers, the
layout arithmetic of `draw_bay_group`, and the export dispatch of
`create_editable_export`.

Numeric values are Python floats in the source; they are modelled here as
exact rationals (`ℚ`), so every arithmetic identity below is about the
ideal real-number semantics of the source expressions.  Integer-valued
fields (`num_rows`, `num_cols`, `num_bays`) are modelled as `ℤ`, matching
Python's unbounded integers.
-/

/-- The bay configuration record held in `st.session_state.bay_group`
(`src/app.py` lines 229-246): a flat record of identifiers, dimensions,
column/row counts, the ordered per-row bin heights, their lock flags, a
display color and a zoom factor. -/
structure BayParams where
  id : String
  name : String
  num_bays : ℤ
  bay_width : ℚ
  total_height : ℚ
  ground_clearance : ℚ
  shelf_thickness : ℚ
  side_panel_thickness : ℚ
  num_cols : ℤ
  num_rows : ℤ
  has_top_cap : Bool
  color : String
  bin_heights : List ℚ
  lock_heights : List Bool
  zoom : ℚ
deriving DecidableEq, Repr

/-- The shelf count `num_rows + (1 if has_top_cap else 0)` computed inline
in `validate_group_params`, `distribute_total_height` and
`update_total_height` (lines 102, 251, 262). -/
def num_shelves (p : BayParams) : ℤ :=
  p.num_rows + (if p.has_top_cap then 1 else 0)

/-- The `required_height` expression of `validate_group_params`
(lines 101-103): `sum(bin_heights) + num_shelves * shelf_thickness +
ground_clearance`.  The same expression is assigned to `total_height` by
`update_total_height` (lines 262-265). -/
def required_height (p : BayParams) : ℚ :=
  p.bin_heights.sum + (num_shelves p : ℚ) * p.shelf_thickness + p.ground_clearance

/-- The height-mismatch error message of `validate_group_params`
(line 105).  The source interpolates the two numeric values into the
message with `f"..."`; only the presence or absence of the message in the
returned error list matters to the claims, so the message is modelled as a
fixed string. -/
def heightMismatchMsg : String :=
  "Calculated height does not match target height."

/-- Embedding of `validate_group_params` (`src/app.py` lines 84-106).  The
Python function starts from an empty list and appends each message under
its condition, in order; that is the ordered concatenation below.  The
final check is `abs(required_height - total_height) > 0.1`. -/
def validate_group_params (p : BayParams) : List String :=
  (if p.bay_width ≤ 0 then ["Bay width must be positive."] else []) ++
  (if p.total_height ≤ 0 then ["Total height must be positive."] else []) ++
  (if p.ground_clearance < 0 then ["Ground clearance cannot be negative."] else []) ++
  (if p.shelf_thickness ≤ 0 then ["Shelf thickness must be positive."] else []) ++
  (if p.side_panel_thickness ≤ 0 then ["Side panel thickness must be positive."] else []) ++
  (if p.num_cols < 1 then ["Number of columns must be at least 1."] else []) ++
  (if p.num_rows < 1 then ["Number of rows must be at least 1."] else []) ++
  (if 1/10 < |required_height p - p.total_height| then [heightMismatchMsg] else [])

/-- The default session-state record (`src/app.py` lines 229-246), with
`zoom = 1.5` written as `3/2`. -/
def defaultBay : BayParams :=
  { id := "default"
    name := "Bay Design"
    num_bays := 1
    bay_width := 1050
    total_height := 2000
    ground_clearance := 50
    shelf_thickness := 18
    side_panel_thickness := 18
    num_cols := 3
    num_rows := 3
    has_top_cap := true
    color := "#4A90E2"
    bin_heights := [350, 350, 350]
    lock_heights := [false, false, false]
    zoom := 3/2 }

/-- A narrow bay: every individual validation passes and the height
invariant holds exactly (`10 + 1*1 + 0 = 11`), yet the net width
`bay_width - 2 * side_panel_thickness = 10 - 10 = 0` is not positive. -/
def slimBay : BayParams :=
  { id := "slim"
    name := "Bay Design"
    num_bays := 1
    bay_width := 10
    total_height := 11
    ground_clearance := 0
    shelf_thickness := 1
    side_panel_thickness := 5
    num_cols := 1
    num_rows := 1
    has_top_cap := false
    color := "#4A90E2"
    bin_heights := [10]
    lock_heights := [false]
    zoom := 1 }

/-- The net width `bay_width - 2 * side_panel_thickness` computed in
`draw_bay_group` (line 137). -/
def net_width_per_bay (p : BayParams) : ℚ :=
  p.bay_width - 2 * p.side_panel_thickness

/-- The per-column bin width of `draw_bay_group` (line 138):
`net_width_per_bay / num_cols if num_cols > 0 else 0`. -/
def bin_width (p : BayParams) : ℚ :=
  if 0 < p.num_cols then net_width_per_bay p / (p.num_cols : ℚ) else 0

/-- Embedding of `update_total_height` (`src/app.py` lines 261-265): the
callback overwrites `total_height` with
`sum(bin_heights) + num_shelves * shelf_thickness + ground_clearance`. -/
def update_total_height (p : BayParams) : BayParams :=
  { p with total_height :=
      p.bin_heights.sum + (num_shelves p : ℚ) * p.shelf_thickness + p.ground_clearance }

/-- The record obtained from the defaults by setting the target height
0.05 mm away from the exactly consistent value 1172 mm: the difference is
inside the 0.1 mm tolerance of `validate_group_params`. -/
def nearMissBay : BayParams :=
  { defaultBay with total_height := 1172 + 1/20 }

lemma mem_ite_singleton {α : Type} (x y : α) (c : Prop) [Decidable c] :
    x ∈ (if c then [y] else ([] : List α)) ↔ c ∧ x = y := by
  split_ifs with h <;> simp [h]

lemma mem_validate_bay_width (p : BayParams) :
    "Bay width must be positive." ∈ validate_group_params p ↔ p.bay_width ≤ 0 := by
  unfold validate_group_params
  simp only [List.mem_append, mem_ite_singleton]
  simp [heightMismatchMsg]

lemma mem_validate_total_height (p : BayParams) :
    "Total height must be positive." ∈ validate_group_params p ↔ p.total_height ≤ 0 := by
  unfold validate_group_params
  simp only [List.mem_append, mem_ite_singleton]
  simp [heightMismatchMsg]

lemma mem_validate_ground_clearance (p : BayParams) :
    "Ground clearance cannot be negative." ∈ validate_group_params p ↔
      p.ground_clearance < 0 := by
  unfold validate_group_params
  simp only [List.mem_append, mem_ite_singleton]
  simp [heightMismatchMsg]

lemma mem_validate_shelf_thickness (p : BayParams) :
    "Shelf thickness must be positive." ∈ validate_group_params p ↔
      p.shelf_thickness ≤ 0 := by
  unfold validate_group_params
  simp only [List.mem_append, mem_ite_singleton]
  simp [heightMismatchMsg]

lemma mem_validate_side_panel (p : BayParams) :
    "Side panel thickness must be positive." ∈ validate_group_params p ↔
      p.side_panel_thickness ≤ 0 := by
  unfold validate_group_params
  simp only [List.mem_append, mem_ite_singleton]
  simp [heightMismatchMsg]

lemma mem_validate_num_cols (p : BayParams) :
    "Number of columns must be at least 1." ∈ validate_group_params p ↔
      p.num_cols < 1 := by
  unfold validate_group_params
  simp only [List.mem_append, mem_ite_singleton]
  simp [heightMismatchMsg]

lemma mem_validate_num_rows (p : BayParams) :
    "Number of rows must be at least 1." ∈ validate_group_params p ↔
      p.num_rows < 1 := by
  unfold validate_group_params
  simp only [List.mem_append, mem_ite_singleton]
  simp [heightMismatchMsg]

lemma mem_validate_height_mismatch (p : BayParams) :
    heightMismatchMsg ∈ validate_group_params p ↔
      1/10 < |required_height p - p.total_height| := by
  unfold validate_group_params
  simp only [List.mem_append, mem_ite_singleton]
  simp [heightMismatchMsg]

lemma validate_eq_nil (p : BayParams)
    (h1 : 0 < p.bay_width) (h2 : 0 < p.total_height) (h3 : 0 ≤ p.ground_clearance)
    (h4 : 0 < p.shelf_thickness) (h5 : 0 < p.side_panel_thickness)
    (h6 : 1 ≤ p.num_cols) (h7 : 1 ≤ p.num_rows)
    (h8 : p.total_height = required_height p) :
    validate_group_params p = [] := by
  have g8 : ¬ (1/10 < |required_height p - p.total_height|) := by
    rw [h8, sub_self, abs_zero]
    norm_num
  unfold validate_group_params
  rw [if_neg (not_le.mpr h1), if_neg (not_le.mpr h2), if_neg (not_lt.mpr h3),
      if_neg (not_le.mpr h4), if_neg (not_le.mpr h5), if_neg (by omega), if_neg (by omega),
      if_neg g8]
  rfl

/-- C1 (corrected): `validate_group_params` includes the height-mismatch
error in its returned list if and only if the absolute difference between
the target `total_height` and the calculated
`sum(bin_heights) + (num_rows + (1 if has_top_cap else 0)) * shelf_thickness
+ ground_clearance` exceeds the tolerance 0.1 mm — not if and only if the
two differ at all. -/
theorem height_mismatch_error_iff_tolerance_exceeded (p : BayParams) :
    heightMismatchMsg ∈ validate_group_params p ↔
      1/10 < |(p.bin_heights.sum
          + ((p.num_rows + if p.has_top_cap then 1 else 0 : ℤ) : ℚ) * p.shelf_thickness
          + p.ground_clearance) - p.total_height| :=
  mem_validate_height_mismatch p

/-- C1 counterexample: on the record whose target height is 0.05 mm away
from the consistent value, the height-mismatch error is absent although
`total_height` differs from the calculated height, so "error present iff
heights unequal" is false. -/
theorem height_check_not_exact_equality :
    ¬ ((heightMismatchMsg ∈ validate_group_params nearMissBay) ↔
        nearMissBay.total_height ≠ nearMissBay.bin_heights.sum
          + ((nearMissBay.num_rows + if nearMissBay.has_top_cap then 1 else 0 : ℤ) : ℚ)
              * nearMissBay.shelf_thickness
          + nearMissBay.ground_clearance) := by
  intro hiff
  have hne : nearMissBay.total_height ≠ nearMissBay.bin_heights.sum
      + ((nearMissBay.num_rows + if nearMissBay.has_top_cap then 1 else 0 : ℤ) : ℚ)
          * nearMissBay.shelf_thickness
      + nearMissBay.ground_clearance := by
    norm_num [nearMissBay, defaultBay]
  have hmem := hiff.mpr hne
  rw [mem_validate_height_mismatch] at hmem
  have hdiff : required_height nearMissBay - nearMissBay.total_height = -(1/20) := by
    norm_num [required_height, num_shelves, nearMissBay, defaultBay]
  rw [hdiff, abs_neg, abs_of_pos (by norm_num : (0:ℚ) < 1/20)] at hmem
  norm_num at hmem

/-- C2: after `update_total_height`, the record satisfies
`total_height = sum(bin_heights) + (num_rows + (1 if has_top_cap else 0))
* shelf_thickness + ground_clearance` exactly, and a subsequent
`validate_group_params` does not report the height-mismatch error. -/
theorem update_total_height_restores_invariant (p : BayParams) :
    (update_total_height p).total_height
        = (update_total_height p).bin_heights.sum
          + (((update_total_height p).num_rows
              + if (update_total_height p).has_top_cap then 1 else 0 : ℤ) : ℚ)
              * (update_total_height p).shelf_thickness
          + (update_total_height p).ground_clearance
    ∧ heightMismatchMsg ∉ validate_group_params (update_total_height p) := by
  constructor
  · simp [update_total_height, num_shelves]
  · rw [mem_validate_height_mismatch]
    have h : required_height (update_total_height p)
        = (update_total_height p).total_height := by
      simp [update_total_height, required_height, num_shelves]
    rw [h]
    norm_num

/-- C4: each out-of-range parameter contributes its specific message to
the error list returned by `validate_group_params` (so the list is
non-empty whenever any of the seven range conditions is violated), and the
list is empty when all parameters are in range and the height invariant
holds exactly. -/
theorem validate_error_conditions (p : BayParams) :
    (p.bay_width ≤ 0 → "Bay width must be positive." ∈ validate_group_params p)
    ∧ (p.total_height ≤ 0 → "Total height must be positive." ∈ validate_group_params p)
    ∧ (p.ground_clearance < 0 →
        "Ground clearance cannot be negative." ∈ validate_group_params p)
    ∧ (p.shelf_thickness ≤ 0 →
        "Shelf thickness must be positive." ∈ validate_group_params p)
    ∧ (p.side_panel_thickness ≤ 0 →
        "Side panel thickness must be positive." ∈ validate_group_params p)
    ∧ (p.num_cols < 1 → "Number of columns must be at least 1." ∈ validate_group_params p)
    ∧ (p.num_rows < 1 → "Number of rows must be at least 1." ∈ validate_group_params p)
    ∧ ((p.bay_width ≤ 0 ∨ p.total_height ≤ 0 ∨ p.ground_clearance < 0
        ∨ p.shelf_thickness ≤ 0 ∨ p.side_panel_thickness ≤ 0
        ∨ p.num_cols < 1 ∨ p.num_rows < 1) → validate_group_params p ≠ [])
    ∧ (0 < p.bay_width → 0 < p.total_height → 0 ≤ p.ground_clearance →
        0 < p.shelf_thickness → 0 < p.side_panel_thickness →
        1 ≤ p.num_cols → 1 ≤ p.num_rows → p.total_height = required_height p →
        validate_group_params p = []) := by
  refine ⟨fun h => (mem_validate_bay_width p).mpr h,
          fun h => (mem_validate_total_height p).mpr h,
          fun h => (mem_validate_ground_clearance p).mpr h,
          fun h => (mem_validate_shelf_thickness p).mpr h,
          fun h => (mem_validate_side_panel p).mpr h,
          fun h => (mem_validate_num_cols p).mpr h,
          fun h => (mem_validate_num_rows p).mpr h,
          ?_, validate_eq_nil p⟩
  rintro (h | h | h | h | h | h | h)
  · exact List.ne_nil_of_mem ((mem_validate_bay_width p).mpr h)
  · exact List.ne_nil_of_mem ((mem_validate_total_height p).mpr h)
  · exact List.ne_nil_of_mem ((mem_validate_ground_clearance p).mpr h)
  · exact List.ne_nil_of_mem ((mem_validate_shelf_thickness p).mpr h)
  · exact List.ne_nil_of_mem ((mem_validate_side_panel p).mpr h)
  · exact List.ne_nil_of_mem ((mem_validate_num_cols p).mpr h)
  · exact List.ne_nil_of_mem ((mem_validate_num_rows p).mpr h)

/-- A consistent variant of the default record (`total_height` adjusted to
the exactly calculated 1172 mm), used to witness the validation claims. -/
def consistentBay : BayParams :=
  { defaultBay with total_height := 1172 }

/-- Witness for C4: the consistent default record passes every range check
and satisfies the height invariant exactly, and `validate_group_params`
returns the empty list on it. -/
theorem validate_error_conditions_witness :
    validate_group_params consistentBay = [] :=
  (validate_error_conditions consistentBay).2.2.2.2.2.2.2.2
    (by norm_num [consistentBay, defaultBay])
    (by norm_num [consistentBay, defaultBay])
    (by norm_num [consistentBay, defaultBay])
    (by norm_num [consistentBay, defaultBay])
    (by norm_num [consistentBay, defaultBay])
    (by norm_num [consistentBay, defaultBay])
    (by norm_num [consistentBay, defaultBay])
    (by norm_num [consistentBay, defaultBay, required_height, num_shelves])

/-- The local `total_shelf_thickness` of `distribute_total_height`
(line 252): `num_shelves_for_calc * shelf_thickness`. -/
def total_shelf_thickness (p : BayParams) : ℚ :=
  (num_shelves p : ℚ) * p.shelf_thickness

/-- The local `available_space` of `distribute_total_height` (line 253):
`total_height - ground_clearance - total_shelf_thickness`. -/
def available_space (p : BayParams) : ℚ :=
  p.total_height - p.ground_clearance - total_shelf_thickness p

/-- The local `unlocked_indices` of `distribute_total_height` (line 254):
`[i for i, locked in enumerate(lock_heights) if not locked]`. -/
def unlocked_indices (p : BayParams) : List ℕ :=
  (List.range p.lock_heights.length).filter (fun i => ! p.lock_heights.getD i true)

/-- The local `num_unlocked` of `distribute_total_height` (line 255). -/
def num_unlocked (p : BayParams) : ℕ :=
  (unlocked_indices p).length

/-- The local `uniform_net_h` of `distribute_total_height` (line 257):
`available_space / num_unlocked`. -/
def uniform_net_h (p : BayParams) : ℚ :=
  available_space p / (num_unlocked p : ℚ)

/-- Embedding of `distribute_total_height` (`src/app.py` lines 250-259):
when the available space is positive and some row is unlocked, every
unlocked entry of `bin_heights` is overwritten with the uniform height;
otherwise nothing happens.  The Python `for i in unlocked_indices` loop of
assignments `bin_heights[i] = uniform_net_h` is the left fold of
`List.set` below. -/
def distribute_total_height (p : BayParams) : BayParams :=
  if 0 < available_space p ∧ 0 < num_unlocked p then
    { p with bin_heights :=
        (unlocked_indices p).foldl (fun l i => l.set i (uniform_net_h p)) p.bin_heights }
  else p

lemma foldl_set_getD_of_not_mem (v : ℚ) (idxs : List ℕ) (l : List ℚ) (i : ℕ)
    (h : i ∉ idxs) :
    (idxs.foldl (fun acc j => acc.set j v) l).getD i 0 = l.getD i 0 := by
  induction idxs generalizing l with
  | nil => rfl
  | cons j t ih =>
      simp only [List.foldl_cons]
      rw [ih _ (fun hm => h (List.mem_cons_of_mem _ hm))]
      have hij : j ≠ i := fun e => h (e ▸ List.mem_cons_self _ _)
      rw [List.getD_eq_getElem?_getD, List.getD_eq_getElem?_getD,
        List.getElem?_set_ne hij]

lemma foldl_set_range (v : ℚ) (n : ℕ) : ∀ l : List ℚ, n ≤ l.length →
    (List.range n).foldl (fun acc j => acc.set j v) l
      = List.replicate n v ++ l.drop n := by
  induction n with
  | zero => intro l _; simp
  | succ n ih =>
      intro l h
      have hn : n < l.length := h
      rw [List.range_succ, List.foldl_append, ih l (Nat.le_of_succ_le h)]
      simp only [List.foldl_cons, List.foldl_nil]
      rw [List.set_append_right _ _ (by rw [List.length_replicate])]
      rw [List.length_replicate, Nat.sub_self, List.drop_eq_getElem_cons hn,
        List.set_cons_zero, List.replicate_succ', List.append_assoc]
      rfl

lemma unlocked_indices_of_all_unlocked (p : BayParams)
    (hl : ∀ b ∈ p.lock_heights, b = false) :
    unlocked_indices p = List.range p.lock_heights.length := by
  apply List.filter_eq_self.mpr
  intro i hi
  rw [List.mem_range] at hi
  rw [List.getD_eq_getElem _ _ hi, hl _ (List.getElem_mem hi)]
  rfl

lemma unlocked_indices_of_all_locked (p : BayParams)
    (hl : ∀ b ∈ p.lock_heights, b = true) :
    unlocked_indices p = [] := by
  unfold unlocked_indices
  rw [List.filter_eq_nil_iff]
  intro i hi
  rw [List.mem_range] at hi
  rw [List.getD_eq_getElem _ _ hi, hl _ (List.getElem_mem hi)]
  simp

/-- C9: `distribute_total_height` leaves every locked (or out-of-range)
entry of `bin_heights` unchanged, changes no field of the record other
than `bin_heights`, and leaves the whole record unchanged when the
available space is not positive or every row is locked. -/
theorem distribute_total_height_frame (p : BayParams) :
    (∀ i, p.lock_heights.getD i true = true →
        (distribute_total_height p).bin_heights.getD i 0 = p.bin_heights.getD i 0)
    ∧ ((distribute_total_height p).id = p.id
        ∧ (distribute_total_height p).name = p.name
        ∧ (distribute_total_height p).num_bays = p.num_bays
        ∧ (distribute_total_height p).bay_width = p.bay_width
        ∧ (distribute_total_height p).total_height = p.total_height
        ∧ (distribute_total_height p).ground_clearance = p.ground_clearance
        ∧ (distribute_total_height p).shelf_thickness = p.shelf_thickness
        ∧ (distribute_total_height p).side_panel_thickness = p.side_panel_thickness
        ∧ (distribute_total_height p).num_cols = p.num_cols
        ∧ (distribute_total_height p).num_rows = p.num_rows
        ∧ (distribute_total_height p).has_top_cap = p.has_top_cap
        ∧ (distribute_total_height p).color = p.color
        ∧ (distribute_total_height p).lock_heights = p.lock_heights
        ∧ (distribute_total_height p).zoom = p.zoom)
    ∧ ((available_space p ≤ 0 ∨ (∀ b ∈ p.lock_heights, b = true)) →
        distribute_total_height p = p) := by
  refine ⟨?_, ?_, ?_⟩
  · intro i hi
    unfold distribute_total_height
    split_ifs with hc
    · apply foldl_set_getD_of_not_mem
      intro hmem
      unfold unlocked_indices at hmem
      rw [List.mem_filter] at hmem
      rw [hi] at hmem
      simp at hmem
    · rfl
  · unfold distribute_total_height
    split_ifs <;>
      exact ⟨rfl, rfl, rfl, rfl, rfl, rfl, rfl, rfl, rfl, rfl, rfl, rfl, rfl, rfl⟩
  · intro h
    have hneg : ¬ (0 < available_space p ∧ 0 < num_unlocked p) := by
      rintro ⟨h1, h2⟩
      rcases h with h | h
      · linarith
      · unfold num_unlocked at h2
        rw [unlocked_indices_of_all_locked p h] at h2
        simp at h2
    unfold distribute_total_height
    rw [if_neg hneg]

/-- Witness for C9: on the all-locked variant of the default record,
`distribute_total_height` is the identity. -/
theorem distribute_total_height_frame_witness :
    distribute_total_height
        { defaultBay with lock_heights := [true, true, true] }
      = { defaultBay with lock_heights := [true, true, true] } :=
  (distribute_total_height_frame _).2.2 (Or.inr (by decide))

/-- C3 (amended, positive part): `distribute_total_height` establishes the
height invariant when the available space is positive, every row is
unlocked, and `bin_heights` and `lock_heights` have the same nonzero
length. -/
theorem distribute_establishes_invariant_when_unlocked (p : BayParams)
    (hl : ∀ b ∈ p.lock_heights, b = false)
    (hlen : p.bin_heights.length = p.lock_heights.length)
    (hpos : 0 < p.lock_heights.length)
    (havail : 0 < available_space p) :
    (distribute_total_height p).total_height
      = (distribute_total_height p).bin_heights.sum
        + (((distribute_total_height p).num_rows
            + if (distribute_total_height p).has_top_cap then 1 else 0 : ℤ) : ℚ)
            * (distribute_total_height p).shelf_thickness
        + (distribute_total_height p).ground_clearance := by
  have hui : unlocked_indices p = List.range p.lock_heights.length :=
    unlocked_indices_of_all_unlocked p hl
  have hnum : num_unlocked p = p.lock_heights.length := by
    unfold num_unlocked
    rw [hui, List.length_range]
  have hcond : 0 < available_space p ∧ 0 < num_unlocked p := ⟨havail, by omega⟩
  unfold distribute_total_height
  rw [if_pos hcond]
  simp only
  rw [hui, ← hlen, foldl_set_range _ _ p.bin_heights le_rfl, List.drop_length,
    List.append_nil, List.sum_replicate, nsmul_eq_mul]
  unfold uniform_net_h
  rw [hnum, ← hlen]
  have hne : ((p.bin_heights.length : ℕ) : ℚ) ≠ 0 := by
    rw [hlen]
    exact_mod_cast Nat.pos_iff_ne_zero.mp hpos
  rw [mul_div_cancel₀ _ hne]
  unfold available_space total_shelf_thickness num_shelves
  ring

/-- Witness for C3's amended theorem: the all-unlocked default record with
positive available space. -/
theorem distribute_establishes_invariant_witness :
    (distribute_total_height defaultBay).total_height
      = (distribute_total_height defaultBay).bin_heights.sum
        + (((distribute_total_height defaultBay).num_rows
            + if (distribute_total_height defaultBay).has_top_cap then 1 else 0 : ℤ) : ℚ)
            * (distribute_total_height defaultBay).shelf_thickness
        + (distribute_total_height defaultBay).ground_clearance :=
  distribute_establishes_invariant_when_unlocked defaultBay (by decide) rfl
    (by decide)
    (by norm_num [available_space, total_shelf_thickness, num_shelves, defaultBay])

/-- A record with one locked row of nonzero height: after redistribution
the calculated height exceeds the target by the locked height. -/
def lockBay : BayParams :=
  { defaultBay with
    num_rows := 2
    bin_heights := [100, 100]
    lock_heights := [true, false] }

/-- C3 counterexample: on `lockBay` the available space is positive and a
row is unlocked, so `distribute_total_height` redistributes, but the
resulting record violates the height invariant: the calculated height is
2100 mm while `total_height` is 2000 mm. -/
theorem distribute_violates_invariant_with_locks :
    (distribute_total_height lockBay).total_height
      ≠ (distribute_total_height lockBay).bin_heights.sum
        + (((distribute_total_height lockBay).num_rows
            + if (distribute_total_height lockBay).has_top_cap then 1 else 0 : ℤ) : ℚ)
            * (distribute_total_height lockBay).shelf_thickness
        + (distribute_total_height lockBay).ground_clearance := by
  have hui : unlocked_indices lockBay = [1] := by
    simp [unlocked_indices, lockBay, defaultBay, List.range_succ]
  have hav : available_space lockBay = 1896 := by
    norm_num [available_space, total_shelf_thickness, num_shelves, lockBay, defaultBay]
  have hnum : num_unlocked lockBay = 1 := by
    unfold num_unlocked
    rw [hui]
    rfl
  have huni : uniform_net_h lockBay = 1896 := by
    unfold uniform_net_h
    rw [hav, hnum]
    norm_num
  have hd : distribute_total_height lockBay
      = { lockBay with bin_heights := [100, 1896] } := by
    unfold distribute_total_height
    rw [if_pos ⟨by rw [hav]; norm_num, by rw [hnum]; norm_num⟩, hui, huni]
    simp [lockBay, defaultBay]
  rw [hd]
  norm_num [lockBay, defaultBay]

/-- Embedding of the row-count change handler (`src/app.py` lines
381-389), which runs after `num_rows` has been set from the number input:
if `num_rows` exceeds `len(bin_heights)`, `bin_heights` is extended with
copies of its first entry (or 350.0 when empty) and `lock_heights` with
`False`; otherwise both lists are truncated to `num_rows` entries.  The
handler ends by calling `update_total_height` (line 389). -/
def num_rows_change (p : BayParams) : BayParams :=
  update_total_height
    (if (p.bin_heights.length : ℤ) < p.num_rows then
      { p with
        bin_heights := p.bin_heights
          ++ List.replicate (p.num_rows.toNat - p.bin_heights.length)
              (p.bin_heights.headD 350)
        lock_heights := p.lock_heights
          ++ List.replicate (p.num_rows.toNat - p.lock_heights.length) false }
    else
      { p with
        bin_heights := p.bin_heights.take p.num_rows.toNat
        lock_heights := p.lock_heights.take p.num_rows.toNat })

/-- Embedding of the manual comma-separated heights entry (`src/app.py`
lines 396-405): input whose length differs from `num_rows` or that
contains a non-positive height is rejected (the record is unchanged);
otherwise `bin_heights` is replaced, `lock_heights` is reset to all-False
of the same length, and `update_total_height` runs. -/
def manual_heights_entry (p : BayParams) (new_heights : List ℚ) : BayParams :=
  if (new_heights.length : ℤ) ≠ p.num_rows then p
  else if new_heights.any (fun h => decide (h ≤ 0)) then p
  else update_total_height
    { p with
      bin_heights := new_heights
      lock_heights := List.replicate new_heights.length false }

/-- C5: every operation that changes the row count or the bin-height list
preserves the invariant `len(bin_heights) == num_rows == len(lock_heights)`:
the row-count handler (given `num_rows >= 1` and lists of equal length)
re-establishes it for the new `num_rows`, and the manual heights entry
(given a record already satisfying it) maintains it. -/
theorem handlers_preserve_length_invariant (p q : BayParams) (nh : List ℚ)
    (hp1 : 1 ≤ p.num_rows)
    (hplen : p.bin_heights.length = p.lock_heights.length)
    (hq1 : (q.bin_heights.length : ℤ) = q.num_rows)
    (hq2 : (q.lock_heights.length : ℤ) = q.num_rows) :
    (((num_rows_change p).bin_heights.length : ℤ) = (num_rows_change p).num_rows
      ∧ ((num_rows_change p).lock_heights.length : ℤ) = (num_rows_change p).num_rows)
    ∧ (((manual_heights_entry q nh).bin_heights.length : ℤ)
          = (manual_heights_entry q nh).num_rows
      ∧ ((manual_heights_entry q nh).lock_heights.length : ℤ)
          = (manual_heights_entry q nh).num_rows) := by
  constructor
  · unfold num_rows_change update_total_height
    split_ifs with h
    · constructor
      · simp only [List.length_append, List.length_replicate]
        omega
      · simp only [List.length_append, List.length_replicate]
        omega
    · constructor
      · simp only [List.length_take]
        omega
      · simp only [List.length_take]
        omega
  · unfold manual_heights_entry update_total_height
    split_ifs with h1 h2
    · exact ⟨hq1, hq2⟩
    · exact ⟨hq1, hq2⟩
    · constructor
      · simp only
        omega
      · simp only [List.length_replicate]
        omega

/-- The default record with the row count raised to 5, so the row-count
handler must extend both lists. -/
def growBay : BayParams :=
  { defaultBay with num_rows := 5 }

/-- Witness for C5: the handler on `growBay` (lists of length 3,
`num_rows = 5`) and the manual entry of three heights on the default
record both yield records satisfying the length invariant. -/
theorem handlers_preserve_length_invariant_witness :
    (((num_rows_change growBay).bin_heights.length : ℤ) = (num_rows_change growBay).num_rows
      ∧ ((num_rows_change growBay).lock_heights.length : ℤ)
          = (num_rows_change growBay).num_rows)
    ∧ (((manual_heights_entry defaultBay [300, 300, 300]).bin_heights.length : ℤ)
          = (manual_heights_entry defaultBay [300, 300, 300]).num_rows
      ∧ ((manual_heights_entry defaultBay [300, 300, 300]).lock_heights.length : ℤ)
          = (manual_heights_entry defaultBay [300, 300, 300]).num_rows) :=
  handlers_preserve_length_invariant growBay defaultBay [300, 300, 300]
    (by norm_num [growBay, defaultBay]) rfl
    (by norm_num [defaultBay]) (by norm_num [defaultBay])

/-- The running `current_y` of the drawing loop of `draw_bay_group`
(`src/app.py` lines 146-177): `current_y i` is the value of the Python
variable at the start of iteration `i`, i.e. the `shelf_bottom_y` of row
`i`.  The loop advances `current_y` to `bin_top_y` only inside the
`if i < len(bin_heights)` guard (lines 158-177). -/
def current_y (p : BayParams) : ℕ → ℚ
  | 0 => p.ground_clearance
  | i + 1 =>
      if i < p.bin_heights.length then
        current_y p i + p.shelf_thickness + p.bin_heights.getD i 0
      else current_y p i

/-- The `bin_bottom_y = shelf_top_y = shelf_bottom_y + shelf_thickness` of
row `i` (`src/app.py` lines 156, 164). -/
def bin_bottom_y (p : BayParams) (i : ℕ) : ℚ :=
  current_y p i + p.shelf_thickness

/-- The `bin_top_y = bin_bottom_y + net_bin_h` of row `i` (`src/app.py`
line 165). -/
def bin_top_y (p : BayParams) (i : ℕ) : ℚ :=
  bin_bottom_y p i + p.bin_heights.getD i 0

lemma current_y_closed (p : BayParams) : ∀ i, i ≤ p.bin_heights.length →
    current_y p i = p.ground_clearance
      + ((List.range i).map (fun j => p.shelf_thickness + p.bin_heights.getD j 0)).sum := by
  intro i
  induction i with
  | zero =>
      intro _
      simp [current_y]
  | succ i ih =>
      intro h
      have hi : i < p.bin_heights.length := h
      rw [current_y, if_pos hi, ih (Nat.le_of_succ_le h), List.range_succ,
        List.map_append, List.sum_append]
      simp
      ring

/-- C6: in `draw_bay_group`, for every row `i < num_rows` with
`i < len(bin_heights)`, the shelf bottom of row `i` sits at
`ground_clearance + sum over j < i of (shelf_thickness + bin_heights[j])`,
the bin of row `i` spans from that bottom plus `shelf_thickness` to that
point plus `bin_heights[i]`, and the `num_cols` equal-width columns
exactly partition the net bay width
`bay_width - 2 * side_panel_thickness`. -/
theorem draw_bay_group_layout (p : BayParams) (i : ℕ)
    (hrow : i < p.num_rows.toNat) (hlen : i < p.bin_heights.length) :
    current_y p i = p.ground_clearance
        + ((List.range i).map (fun j => p.shelf_thickness + p.bin_heights.getD j 0)).sum
    ∧ bin_bottom_y p i = current_y p i + p.shelf_thickness
    ∧ bin_top_y p i = current_y p i + p.shelf_thickness + p.bin_heights.getD i 0
    ∧ (0 < p.num_cols → (p.num_cols : ℚ) * bin_width p
        = p.bay_width - 2 * p.side_panel_thickness) := by
  refine ⟨current_y_closed p i (le_of_lt hlen), rfl, rfl, ?_⟩
  intro hc
  unfold bin_width net_width_per_bay
  rw [if_pos hc, mul_comm, div_mul_cancel₀]
  exact Int.cast_ne_zero.mpr (by omega)

/-- Witness for C6: row 1 of the default record. -/
theorem draw_bay_group_layout_witness :
    current_y defaultBay 1 = defaultBay.ground_clearance
        + ((List.range 1).map
            (fun j => defaultBay.shelf_thickness + defaultBay.bin_heights.getD j 0)).sum
    ∧ bin_bottom_y defaultBay 1 = current_y defaultBay 1 + defaultBay.shelf_thickness
    ∧ bin_top_y defaultBay 1
        = current_y defaultBay 1 + defaultBay.shelf_thickness
          + defaultBay.bin_heights.getD 1 0
    ∧ (0 < defaultBay.num_cols → (defaultBay.num_cols : ℚ) * bin_width defaultBay
        = defaultBay.bay_width - 2 * defaultBay.side_panel_thickness) :=
  draw_bay_group_layout defaultBay 1 (by norm_num [defaultBay])
    (by norm_num [defaultBay])

/-- An in-memory bytes buffer, modelling the `io` module object created at
`src/app.py` line 209: `chunks` records the documents written into it and
`pos` the read position. -/
structure BytesBuffer where
  chunks : List String
  pos : ℕ
deriving DecidableEq, Repr

/-- Models `fig.savefig(export_buf, format=fmt, ...)` (lines 211, 215,
219): the rendered document of the given format is appended to the buffer
and the position advances.  The rendered bytes themselves are abstracted
to the format tag. -/
def savefig (buf : BytesBuffer) (fmt : String) : BytesBuffer :=
  { chunks := buf.chunks ++ [fmt], pos := buf.pos + 1 }

/-- Models `export_buf.seek(0)` (line 224). -/
def seek_start (buf : BytesBuffer) : BytesBuffer :=
  { buf with pos := 0 }

/-- Embedding of `create_editable_export` (`src/app.py` lines 204-226).
The if/elif chain assigns the buffer content, `filename` and `mime_type`
for the three known formats; for any other `format_type` neither variable
is ever assigned and the Python `return` raises `UnboundLocalError`, which
is the `none` result here.  On success the buffer is rewound to position
0 before being returned. -/
def create_editable_export (bay_group : BayParams) (format_type : String) :
    Option (BytesBuffer × String × String) :=
  let export_buf : BytesBuffer := { chunks := [], pos := 0 }
  let assigned : Option (BytesBuffer × String × String) :=
    if format_type = "svg" then
      some (savefig export_buf "svg", "storage_bay_design.svg", "image/svg+xml")
    else if format_type = "png" then
      some (savefig export_buf "png", "storage_bay_design.png", "image/png")
    else if format_type = "pdf" then
      some (savefig export_buf "pdf", "storage_bay_design.pdf", "application/pdf")
    else none
  assigned.map (fun r => (seek_start r.1, r.2.1, r.2.2))

/-- C8: for each `format_type` in svg/png/pdf, `create_editable_export`
returns a buffer positioned at 0, the filename `storage_bay_design.` with
that extension, and the matching MIME type; it succeeds exactly on those
three formats. -/
theorem create_editable_export_formats (p : BayParams) (format_type : String) :
    (format_type = "svg" →
      ∃ b : BytesBuffer, create_editable_export p format_type
          = some (b, "storage_bay_design.svg", "image/svg+xml") ∧ b.pos = 0)
    ∧ (format_type = "png" →
      ∃ b : BytesBuffer, create_editable_export p format_type
          = some (b, "storage_bay_design.png", "image/png") ∧ b.pos = 0)
    ∧ (format_type = "pdf" →
      ∃ b : BytesBuffer, create_editable_export p format_type
          = some (b, "storage_bay_design.pdf", "application/pdf") ∧ b.pos = 0)
    ∧ ((create_editable_export p format_type).isSome ↔
        (format_type = "svg" ∨ format_type = "png" ∨ format_type = "pdf")) := by
  refine ⟨?_, ?_, ?_, ?_⟩
  · intro h
    subst h
    exact ⟨⟨["svg"], 0⟩, rfl, rfl⟩
  · intro h
    subst h
    exact ⟨⟨["png"], 0⟩, rfl, rfl⟩
  · intro h
    subst h
    exact ⟨⟨["pdf"], 0⟩, rfl, rfl⟩
  · unfold create_editable_export
    split_ifs with h1 h2 h3 <;> simp_all

/-- Witness for C8: the svg export of the default record. -/
theorem create_editable_export_formats_witness :
    ∃ b : BytesBuffer, create_editable_export defaultBay "svg"
        = some (b, "storage_bay_design.svg", "image/svg+xml") ∧ b.pos = 0 :=
  (create_editable_export_formats defaultBay "svg").1 rfl

/-- Modelled from the spec: the repository's two pick-path scripts are not
under `src/` (only `app.py` is), so the bin-location record they parse is
modelled from the spec's data model: "a walkway/aisle identifier, a
position or bin number, a shelf/level letter, parsed out of a
fixed-format string via regular expression". -/
structure BinLocation where
  aisle : ℕ
  position : ℕ
  level : Char
deriving DecidableEq, Repr

/-- Splits a character list on the `-` separator, the shape the
fixed-format identifier regex captures around. -/
def splitOnDash : List Char → List (List Char)
  | [] => [[]]
  | c :: t =>
      let r := splitOnDash t
      if c = '-' then [] :: r
      else
        match r with
        | [] => [[c]]
        | h :: t2 => (c :: h) :: t2

/-- Reads a nonempty all-digit character group as a number, the `\d+`
capture group of the modelled regex; anything else fails. -/
def digitsToNat : List Char → Option ℕ
  | [] => none
  | cs => cs.foldl
      (fun acc c =>
        match acc with
        | none => none
        | some n => if c.isDigit then some (n * 10 + (c.toNat - 48)) else none)
      (some 0)

/-- Modelled from the spec: the regex extraction of warehouse coordinates
from a fixed-format bin-location identifier.  The modelled format is
`A<digits>-P<digits>-<level letter>`; an identifier that does not match
yields `none`, as a failed regex match would. -/
def parseBinLocation (s : String) : Option BinLocation :=
  match splitOnDash s.toList with
  | [a, pos, lvl] =>
      match a, pos, lvl with
      | 'A' :: ds, 'P' :: ps, [c] =>
          match digitsToNat ds, digitsToNat ps with
          | some aisleNum, some posNum => some ⟨aisleNum, posNum, c⟩
          | _, _ => none
      | _, _, _ => none
  | _ => none

/-- Modelled from the spec: the within-aisle comparison of the composite
sort key (position, then shelf/level letter). -/
def posLevelLe (x y : BinLocation) : Bool :=
  decide (x.position < y.position)
    || (x.position == y.position && decide (x.level ≤ y.level))

/-- Insertion step of the within-aisle sort by the composite key. -/
def insertByKey (x : BinLocation) : List BinLocation → List BinLocation
  | [] => [x]
  | y :: t => if posLevelLe x y then x :: y :: t else y :: insertByKey x t

/-- Sorts an aisle's bins by the composite key (position, level). -/
def sortByKey : List BinLocation → List BinLocation
  | [] => []
  | x :: t => insertByKey x (sortByKey t)

/-- Insertion step of the ascending aisle ordering. -/
def insertAisle (x : ℕ) : List ℕ → List ℕ
  | [] => [x]
  | y :: t => if x ≤ y then x :: y :: t else y :: insertAisle x t

/-- Sorts the distinct aisle numbers in ascending order. -/
def sortAisles : List ℕ → List ℕ
  | [] => []
  | x :: t => insertAisle x (sortAisles t)

/-- Modelled from the spec: the pick-path ordering — parse every line,
group by aisle in ascending order, sort each aisle's bins by the composite
key, and reverse the visit direction on every second aisle
(serpentine/boustrophedon pattern). -/
def pickSequence (lines : List String) : List BinLocation :=
  let parsed := lines.filterMap parseBinLocation
  let aisles := sortAisles (parsed.map BinLocation.aisle).dedup
  (aisles.enum.map (fun ia =>
      let grp := sortByKey (parsed.filter (fun b => b.aisle == ia.2))
      if ia.1 % 2 = 1 then grp.reverse else grp)).flatten

/-- Six bin-location identifiers across two aisles, listed out of order. -/
def sampleLocs : List String :=
  ["A2-P3-B", "A1-P2-A", "A2-P1-C", "A1-P1-B", "A2-P2-A", "A1-P3-C"]

/-- C7: the pick-path logic regex-parses identifiers into warehouse
coordinates (aisle, position, level letter), sorts by the composite key,
and reverses the visit direction on alternating aisles: on the sample,
aisle 1 is visited in ascending position order and aisle 2 in descending
position order. -/
theorem pick_path_serpentine_ordering :
    parseBinLocation "A2-P3-B" = some ⟨2, 3, 'B'⟩
    ∧ pickSequence sampleLocs
        = [⟨1, 1, 'B'⟩, ⟨1, 2, 'A'⟩, ⟨1, 3, 'C'⟩,
           ⟨2, 3, 'B'⟩, ⟨2, 2, 'A'⟩, ⟨2, 1, 'C'⟩] := by
  constructor
  · decide
  · decide

/-- C10: There exists a bay parameter record for which
`validate_group_params` returns the empty error list and yet
`bay_width - 2 * side_panel_thickness ≤ 0`, so `draw_bay_group` computes a
non-positive bin width for the accepted configuration: validation does not
guarantee that the net bay width or the per-column bin width is
positive. -/
theorem validation_allows_nonpositive_bin_width :
    validate_group_params slimBay = [] ∧
    slimBay.bay_width - 2 * slimBay.side_panel_thickness ≤ 0 ∧
    bin_width slimBay ≤ 0 := by
  refine ⟨?_, by norm_num [slimBay], by norm_num [bin_width, net_width_per_bay, slimBay]⟩
  norm_num [validate_group_params, slimBay, required_height, num_shelves]
